import Mathlib

/-!
Verification of the options-normalization core in `src/lib/eslint/eslint.js`.

The development shallowly embeds the JavaScript module: JS values become the
inductive `JSValue`, a JS object is an association list with first-match
lookup (JS objects have unique keys, so duplicate-free lists are the image of
real objects; theorems quantified over all lists prove strictly more), and a
thrown exception becomes `Except JSError`.
-/

/-- A JavaScript runtime value, restricted to the shapes the module can meet:
`undefined`, `null`, booleans, numbers, strings, arrays and plain objects. -/
inductive JSValue where
  | undefined : JSValue
  | null : JSValue
  | bool (b : Bool) : JSValue
  | num (n : Int) : JSValue
  | str (s : String) : JSValue
  | arr (elems : List JSValue) : JSValue
  | obj (fields : List (String × JSValue)) : JSValue
deriving Repr

/-- Comparison with `null` (as in `cacheLocation !== null`) is decidable by
looking at the head constructor. -/
instance (v : JSValue) : Decidable (v = JSValue.null) :=
  match v with
  | .undefined => isFalse (fun h => JSValue.noConfusion h)
  | .null => isTrue rfl
  | .bool _ => isFalse (fun h => JSValue.noConfusion h)
  | .num _ => isFalse (fun h => JSValue.noConfusion h)
  | .str _ => isFalse (fun h => JSValue.noConfusion h)
  | .arr _ => isFalse (fun h => JSValue.noConfusion h)
  | .obj _ => isFalse (fun h => JSValue.noConfusion h)

/-- A thrown JS exception: either `new Error(msg)` raised explicitly by the
module, or a `TypeError` raised by the runtime (calling a missing method,
reading a property of `undefined`/`null`). -/
inductive JSError where
  | error (msg : String) : JSError
  | typeError (msg : String) : JSError
deriving Repr, DecidableEq, BEq

/-- The JS `typeof` operator on the embedded values.  Note `typeof null`,
`typeof []` and `typeof {}` are all the string `"object"`. -/
def typeOf : JSValue → String
  | .undefined => "undefined"
  | .null => "object"
  | .bool _ => "boolean"
  | .num _ => "number"
  | .str _ => "string"
  | .arr _ => "object"
  | .obj _ => "object"

/-- The JS `Array.isArray` predicate. -/
def isArr : JSValue → Bool
  | .arr _ => true
  | _ => false

/-- JS truthiness of a value (used by `if (options.plugins.length)`). -/
def truthy : JSValue → Bool
  | .undefined => false
  | .null => false
  | .bool b => b
  | .num n => n != 0
  | .str s => s != ""
  | .arr _ => true
  | .obj _ => true

/-- A raw caller-supplied options object: key/value pairs. -/
abbrev RawOptions := List (String × JSValue)

/-- Property lookup on an object's field list: first match wins, a missing
property reads as `undefined`. -/
def getProp : RawOptions → String → JSValue
  | [], _ => JSValue.undefined
  | (k, v) :: rest, key => if k = key then v else getProp rest key

/-- JS destructuring-default semantics: the default replaces the value
exactly when the value is `undefined`. -/
def orDefault (v dflt : JSValue) : JSValue :=
  match v with
  | .undefined => dflt
  | w => w

/-- Destructure one property with a default, as in
`function processOptions({ cache = false, ... })`. -/
def getD (o : RawOptions) (key : String) (dflt : JSValue) : JSValue :=
  orDefault (getProp o key) dflt

/-- Property access `v.key` as an expression that can throw: reading a
property of `undefined` or `null` raises a `TypeError`; every other value
yields the property (or `undefined` when absent — non-objects carry none of
the properties this module reads). -/
def propGet : JSValue → String → JSValue
  | .obj fields, key => getProp fields key
  | _, _ => JSValue.undefined

/-- Throwing property access used where the receiver may be `undefined` or
`null` (as in `normalizePluginIds`, where an array element can be `null`). -/
def jsGet : JSValue → String → Except JSError JSValue
  | .undefined, key => .error (.typeError ("Cannot read property " ++ key ++ " of undefined"))
  | .null, key => .error (.typeError ("Cannot read property " ++ key ++ " of null"))
  | v, key => .ok (propGet v key)

/-- Reading `v.length` (line 236 reads `options.plugins.length` on the raw,
possibly absent, `plugins` property). -/
def jsLength : JSValue → Except JSError JSValue
  | .undefined => .error (.typeError "Cannot read property length of undefined")
  | .null => .error (.typeError "Cannot read property length of null")
  | .arr xs => .ok (.num xs.length)
  | .str s => .ok (.num s.length)
  | .obj fields => .ok (getProp fields "length")
  | _ => .ok .undefined

/-- The element-wise body of `normalizePluginIds` (eslint.js lines 65-67):
`plugins.map(p => (typeof p === "string" ? p : p.id))`, with the exception
of a throwing `p.id` propagating out of the map in element order. -/
def mapPluginIds : List JSValue → Except JSError (List JSValue)
  | [] => .ok []
  | p :: ps =>
    match (if typeOf p = "string" then Except.ok p else jsGet p "id") with
    | .error e => .error e
    | .ok v =>
      match mapPluginIds ps with
      | .error e => .error e
      | .ok vs => .ok (v :: vs)

/-- `normalizePluginIds` (eslint.js lines 65-67).  Calling `.map` on a
non-array receiver would raise a `TypeError`; `processOptions` only reaches
it after `Array.isArray(plugins)` has been checked. -/
def normalizePluginIds (plugins : JSValue) : Except JSError JSValue :=
  match plugins with
  | .arr ps =>
    match mapPluginIds ps with
    | .error e => .error e
    | .ok ids => .ok (.arr ids)
  | _ => .error (.typeError "plugins.map is not a function")

/-- The 23 option names destructured by `processOptions` (eslint.js lines
74-97); every other property of the raw record lands in `...unknownOptions`. -/
def recognizedKeys : List String :=
  ["allowInlineConfig", "baseConfig", "cache", "cacheLocation", "configFile",
   "cwd", "envs", "extensions", "fix", "fixTypes", "globals", "globInputPaths",
   "ignore", "ignorePath", "ignorePattern", "parser", "parserOptions",
   "plugins", "reportUnusedDisableDirectives", "resolvePluginsRelativeTo",
   "rulePaths", "rules", "useEslintrc"]

/-- The `...unknownOptions` rest object (eslint.js line 98): every property
of the raw record whose name is not among the 23 recognized ones. -/
def unknownOptions (o : RawOptions) : RawOptions :=
  o.filter (fun p => !(recognizedKeys.contains p.1))

/-- The record of the 23 options.  It serves both as the destructured,
defaulted view of the raw input (eslint.js lines 74-97) and as the object
returned to `CLIEngine` (lines 200-224), which has the same field set with
`plugins` replaced by its normalized form. -/
structure OptionsRecord where
  allowInlineConfig : JSValue
  baseConfig : JSValue
  cache : JSValue
  cacheLocation : JSValue
  configFile : JSValue
  cwd : JSValue
  envs : JSValue
  extensions : JSValue
  fix : JSValue
  fixTypes : JSValue
  globals : JSValue
  globInputPaths : JSValue
  ignore : JSValue
  ignorePath : JSValue
  ignorePattern : JSValue
  parser : JSValue
  parserOptions : JSValue
  plugins : JSValue
  reportUnusedDisableDirectives : JSValue
  resolvePluginsRelativeTo : JSValue
  rulePaths : JSValue
  rules : JSValue
  useEslintrc : JSValue
deriving Repr

/-- The destructuring with defaults at eslint.js lines 74-97.  `procCwd` is
the ambient `process.cwd()` read at call time; the default of
`resolvePluginsRelativeTo` is the destructured `cwd` value (line 94). -/
def defaulted (procCwd : String) (o : RawOptions) : OptionsRecord where
  allowInlineConfig := getD o "allowInlineConfig" (.bool true)
  baseConfig := getD o "baseConfig" .null
  cache := getD o "cache" (.bool false)
  cacheLocation := getD o "cacheLocation" (.str ".eslintcache")
  configFile := getD o "configFile" .null
  cwd := getD o "cwd" (.str procCwd)
  envs := getD o "envs" (.arr [])
  extensions := getD o "extensions" .null
  fix := getD o "fix" (.bool false)
  fixTypes := getD o "fixTypes" (.arr [.str "problem", .str "suggestion", .str "layout"])
  globals := getD o "globals" (.arr [])
  globInputPaths := getD o "globInputPaths" (.bool true)
  ignore := getD o "ignore" (.bool true)
  ignorePath := getD o "ignorePath" .null
  ignorePattern := getD o "ignorePattern" (.arr [])
  parser := getD o "parser" (.str "espree")
  parserOptions := getD o "parserOptions" .null
  plugins := getD o "plugins" (.arr [])
  reportUnusedDisableDirectives := getD o "reportUnusedDisableDirectives" (.bool false)
  resolvePluginsRelativeTo := getD o "resolvePluginsRelativeTo" (getD o "cwd" (.str procCwd))
  rulePaths := getD o "rulePaths" (.arr [])
  rules := getD o "rules" .null
  useEslintrc := getD o "useEslintrc" (.bool true)

/-- The failing condition of the `configFile` check, verbatim from
eslint.js line 124: `typeof configFile !== "string" && cacheLocation !== null`.
The second conjunct tests `cacheLocation`, not `configFile`. -/
def configFileCheckFails (configFile cacheLocation : JSValue) : Prop :=
  typeOf configFile ≠ "string" ∧ cacheLocation ≠ JSValue.null

instance (cf cl : JSValue) : Decidable (configFileCheckFails cf cl) :=
  inferInstanceAs (Decidable (_ ∧ _))

/-- The sequence of type checks and the final return of `processOptions`
(eslint.js lines 108-225), applied to the destructured record.  The error
messages are verbatim, including the three wrong ones: the `ignore` check
names `globInputPaths` (line 157), the `rulePaths` check names `plugins`
(line 189), and the `useEslintrc` check misspells the name as `useElintrc`
(line 197). -/
def runChecks (d : OptionsRecord) : Except JSError OptionsRecord :=
  if typeOf d.allowInlineConfig ≠ "boolean" then .error (.error "allowInlineConfig must be a boolean.")
  else if typeOf d.baseConfig ≠ "object" then .error (.error "baseConfig must be an object or null.")
  else if typeOf d.cache ≠ "boolean" then .error (.error "cache must be a boolean.")
  else if typeOf d.cacheLocation ≠ "string" then .error (.error "cacheLocation must be a string.")
  else if configFileCheckFails d.configFile d.cacheLocation then .error (.error "configFile must be a string or null.")
  else if typeOf d.cwd ≠ "string" then .error (.error "cwd must be a string.")
  else if isArr d.envs = false then .error (.error "envs must be an array.")
  else if isArr d.extensions = false ∧ d.extensions ≠ JSValue.null then .error (.error "extensions must be an array or null.")
  else if typeOf d.fix ≠ "boolean" then .error (.error "fix must be a boolean.")
  else if isArr d.fixTypes = false then .error (.error "fixTypes must be an array.")
  else if isArr d.globals = false then .error (.error "globals must be an array.")
  else if typeOf d.globInputPaths ≠ "boolean" then .error (.error "globInputPaths must be a boolean.")
  else if typeOf d.ignore ≠ "boolean" then .error (.error "globInputPaths must be a boolean.")
  else if typeOf d.ignorePath ≠ "string" ∧ d.ignorePath ≠ JSValue.null then .error (.error "ignorePath must be a string or null.")
  else if typeOf d.ignorePattern ≠ "string" ∧ isArr d.ignorePattern = false then .error (.error "ignorePattern must be a string or an array of strings.")
  else if typeOf d.parser ≠ "string" then .error (.error "parser must be a string.")
  else if typeOf d.parserOptions ≠ "object" then .error (.error "parserOptions must be an object or null.")
  else if isArr d.plugins = false then .error (.error "plugins must be an array.")
  else if typeOf d.reportUnusedDisableDirectives ≠ "boolean" then .error (.error "reportUnusedDisableDirectives must be a boolean.")
  else if typeOf d.resolvePluginsRelativeTo ≠ "string" then .error (.error "resolvePluginsRelativeTo must be a string.")
  else if isArr d.rulePaths = false then .error (.error "plugins must be an array.")
  else if typeOf d.rules ≠ "object" then .error (.error "rules must be an object or null.")
  else if typeOf d.useEslintrc ≠ "boolean" then .error (.error "useElintrc must be a boolean.")
  else
    match normalizePluginIds d.plugins with
    | .error e => .error e
    | .ok np => .ok { d with plugins := np }

/-- `processOptions` (eslint.js lines 74-225).  The unknown-options gate
(lines 100-106) fires first: `unknownOptions` is a plain object, so the
template literal's calls `unknownOptions.includes("cacheFile")` and
`unknownOptions.join(", ")` find no such methods and evaluating the message
raises a `TypeError` before the intended `Error` is ever constructed. -/
def processOptions (procCwd : String) (o : RawOptions) : Except JSError OptionsRecord :=
  if (unknownOptions o).length ≥ 1 then
    .error (.typeError "unknownOptions.includes is not a function")
  else
    runChecks (defaulted procCwd o)

/-- Observable outcome of running the `ESLint` constructor: which options
record the `CLIEngine` was initialized with (if it was), the `addPlugin`
registration calls issued in order, and the exception thrown (if any). -/
structure ConstructOutcome where
  engineInit : Option OptionsRecord
  registrations : List (JSValue × JSValue)
  thrown : Option JSError
deriving Repr

/-- The registration loop of the constructor (eslint.js lines 237-241):
for each entry, if `typeof plugin === "object" && plugin !== null` then
`addPlugin(plugin.id, plugin.definition)` is called; the guard rules out
`undefined`/`null` receivers, so `propGet` is safe here. -/
def pluginRegLoop : List JSValue → List (JSValue × JSValue)
  | [] => []
  | p :: ps =>
    if typeOf p = "object" ∧ p ≠ JSValue.null then
      (propGet p "id", propGet p "definition") :: pluginRegLoop ps
    else
      pluginRegLoop ps

/-- The elements iterated by `for (const plugin of options.plugins)`.  The
loop is only reached when `options.plugins.length` was readable and truthy;
after a successful validation that value is an array (iterating a string
would visit one-character strings, all skipped by the loop guard, matching
the empty result here). -/
def elemsOf : JSValue → List JSValue
  | .arr xs => xs
  | _ => []

/-- The `ESLint` constructor (eslint.js lines 233-243): validate and pass
the result to `new CLIEngine`, then — reading the raw, pre-normalization
`options.plugins` — run the registration loop when its `length` is truthy. -/
def eslintConstruct (procCwd : String) (options : RawOptions) : ConstructOutcome :=
  match processOptions procCwd options with
  | .error e => ⟨none, [], some e⟩
  | .ok processed =>
    match jsLength (getProp options "plugins") with
    | .error e => ⟨some processed, [], some e⟩
    | .ok len =>
      if truthy len then
        ⟨some processed, pluginRegLoop (elemsOf (getProp options "plugins")), none⟩
      else
        ⟨some processed, [], none⟩

/-- Feeding a normalized record back to the validator: the record as a raw
options object, fields in the order of the returned object literal
(eslint.js lines 200-224). -/
def toRaw (r : OptionsRecord) : RawOptions :=
  [("allowInlineConfig", r.allowInlineConfig), ("baseConfig", r.baseConfig),
   ("cache", r.cache), ("cacheLocation", r.cacheLocation),
   ("configFile", r.configFile), ("cwd", r.cwd), ("envs", r.envs),
   ("extensions", r.extensions), ("fix", r.fix), ("fixTypes", r.fixTypes),
   ("globInputPaths", r.globInputPaths), ("globals", r.globals),
   ("ignore", r.ignore), ("ignorePath", r.ignorePath),
   ("ignorePattern", r.ignorePattern), ("parser", r.parser),
   ("parserOptions", r.parserOptions), ("plugins", r.plugins),
   ("reportUnusedDisableDirectives", r.reportUnusedDisableDirectives),
   ("resolvePluginsRelativeTo", r.resolvePluginsRelativeTo),
   ("rulePaths", r.rulePaths), ("rules", r.rules),
   ("useEslintrc", r.useEslintrc)]

/-! ### Concrete records used by individual claims -/

/-- Raw options for the plugin-normalization scenario: a bare identifier and
an identifier+definition pair.  `configFile` must be supplied as a string for
validation to pass at all (see the `configFile`/`cacheLocation` coupling). -/
def c5RawOptions : RawOptions :=
  [("configFile", JSValue.str "conf"),
   ("plugins", JSValue.arr
      [JSValue.str "foo",
       JSValue.obj [("id", JSValue.str "bar"), ("definition", JSValue.obj [])]])]

/-- The record `processOptions` produces for `c5RawOptions`. -/
def c5Expected (procCwd : String) : OptionsRecord where
  allowInlineConfig := .bool true
  baseConfig := .null
  cache := .bool false
  cacheLocation := .str ".eslintcache"
  configFile := .str "conf"
  cwd := .str procCwd
  envs := .arr []
  extensions := .null
  fix := .bool false
  fixTypes := .arr [.str "problem", .str "suggestion", .str "layout"]
  globals := .arr []
  globInputPaths := .bool true
  ignore := .bool true
  ignorePath := .null
  ignorePattern := .arr []
  parser := .str "espree"
  parserOptions := .null
  plugins := .arr [.str "foo", .str "bar"]
  reportUnusedDisableDirectives := .bool false
  resolvePluginsRelativeTo := .str procCwd
  rulePaths := .arr []
  rules := .null
  useEslintrc := .bool true

/-- Raw options whose only plugin entry is a structured reference carrying an
`id` but no `definition` field. -/
def c6RawOptions : RawOptions :=
  [("configFile", JSValue.str "conf"),
   ("plugins", JSValue.arr [JSValue.obj [("id", JSValue.str "baz")]])]

/-- A fully-populated raw record, every field individually satisfying its
validation rule; the single plugin entry is an object whose `id` is the
number `5` (an array element the `plugins` rule does not constrain). -/
def c7RawFull : RawOptions :=
  [("allowInlineConfig", JSValue.bool true), ("baseConfig", JSValue.null),
   ("cache", JSValue.bool false), ("cacheLocation", JSValue.str ".eslintcache"),
   ("configFile", JSValue.str "conf"), ("cwd", JSValue.str "/cwd"),
   ("envs", JSValue.arr []), ("extensions", JSValue.null),
   ("fix", JSValue.bool false),
   ("fixTypes", JSValue.arr [JSValue.str "problem", JSValue.str "suggestion", JSValue.str "layout"]),
   ("globals", JSValue.arr []), ("globInputPaths", JSValue.bool true),
   ("ignore", JSValue.bool true), ("ignorePath", JSValue.null),
   ("ignorePattern", JSValue.arr []), ("parser", JSValue.str "espree"),
   ("parserOptions", JSValue.null),
   ("plugins", JSValue.arr [JSValue.obj [("id", JSValue.num 5)]]),
   ("reportUnusedDisableDirectives", JSValue.bool false),
   ("resolvePluginsRelativeTo", JSValue.str "/cwd"),
   ("rulePaths", JSValue.arr []), ("rules", JSValue.null),
   ("useEslintrc", JSValue.bool true)]

/-- All 23 type checks of `runChecks` succeed on the record: the negation of
each guard, in check order. -/
def GoodShape (d : OptionsRecord) : Prop :=
  typeOf d.allowInlineConfig = "boolean" ∧
  typeOf d.baseConfig = "object" ∧
  typeOf d.cache = "boolean" ∧
  typeOf d.cacheLocation = "string" ∧
  ¬ configFileCheckFails d.configFile d.cacheLocation ∧
  typeOf d.cwd = "string" ∧
  isArr d.envs = true ∧
  (isArr d.extensions = true ∨ d.extensions = JSValue.null) ∧
  typeOf d.fix = "boolean" ∧
  isArr d.fixTypes = true ∧
  isArr d.globals = true ∧
  typeOf d.globInputPaths = "boolean" ∧
  typeOf d.ignore = "boolean" ∧
  (typeOf d.ignorePath = "string" ∨ d.ignorePath = JSValue.null) ∧
  (typeOf d.ignorePattern = "string" ∨ isArr d.ignorePattern = true) ∧
  typeOf d.parser = "string" ∧
  typeOf d.parserOptions = "object" ∧
  isArr d.plugins = true ∧
  typeOf d.reportUnusedDisableDirectives = "boolean" ∧
  typeOf d.resolvePluginsRelativeTo = "string" ∧
  isArr d.rulePaths = true ∧
  typeOf d.rules = "object" ∧
  typeOf d.useEslintrc = "boolean"

/-- The first violated validation rule in the fixed enumeration order of the
source — the unknown-field gate first, then the 23 per-field checks in the
order they appear in `processOptions`.  Each condition is the corresponding
guard of the source, evaluated on the defaulted record. -/
def firstViolation (procCwd : String) (o : RawOptions) : Option String :=
  if (unknownOptions o).length ≥ 1 then some "unknownOptions"
  else if typeOf (defaulted procCwd o).allowInlineConfig ≠ "boolean" then some "allowInlineConfig"
  else if typeOf (defaulted procCwd o).baseConfig ≠ "object" then some "baseConfig"
  else if typeOf (defaulted procCwd o).cache ≠ "boolean" then some "cache"
  else if typeOf (defaulted procCwd o).cacheLocation ≠ "string" then some "cacheLocation"
  else if configFileCheckFails (defaulted procCwd o).configFile (defaulted procCwd o).cacheLocation then some "configFile"
  else if typeOf (defaulted procCwd o).cwd ≠ "string" then some "cwd"
  else if isArr (defaulted procCwd o).envs = false then some "envs"
  else if isArr (defaulted procCwd o).extensions = false ∧ (defaulted procCwd o).extensions ≠ JSValue.null then some "extensions"
  else if typeOf (defaulted procCwd o).fix ≠ "boolean" then some "fix"
  else if isArr (defaulted procCwd o).fixTypes = false then some "fixTypes"
  else if isArr (defaulted procCwd o).globals = false then some "globals"
  else if typeOf (defaulted procCwd o).globInputPaths ≠ "boolean" then some "globInputPaths"
  else if typeOf (defaulted procCwd o).ignore ≠ "boolean" then some "ignore"
  else if typeOf (defaulted procCwd o).ignorePath ≠ "string" ∧ (defaulted procCwd o).ignorePath ≠ JSValue.null then some "ignorePath"
  else if typeOf (defaulted procCwd o).ignorePattern ≠ "string" ∧ isArr (defaulted procCwd o).ignorePattern = false then some "ignorePattern"
  else if typeOf (defaulted procCwd o).parser ≠ "string" then some "parser"
  else if typeOf (defaulted procCwd o).parserOptions ≠ "object" then some "parserOptions"
  else if isArr (defaulted procCwd o).plugins = false then some "plugins"
  else if typeOf (defaulted procCwd o).reportUnusedDisableDirectives ≠ "boolean" then some "reportUnusedDisableDirectives"
  else if typeOf (defaulted procCwd o).resolvePluginsRelativeTo ≠ "string" then some "resolvePluginsRelativeTo"
  else if isArr (defaulted procCwd o).rulePaths = false then some "rulePaths"
  else if typeOf (defaulted procCwd o).rules ≠ "object" then some "rules"
  else if typeOf (defaulted procCwd o).useEslintrc ≠ "boolean" then some "useEslintrc"
  else none

/-- The exception each stage of the validator raises when its rule is the
first violated one: a `TypeError` for the unknown-field gate (see
`processOptions`), and the verbatim — in three cases wrong — message of each
type check. -/
def errFor : String → JSError
  | "unknownOptions" => .typeError "unknownOptions.includes is not a function"
  | "allowInlineConfig" => .error "allowInlineConfig must be a boolean."
  | "baseConfig" => .error "baseConfig must be an object or null."
  | "cache" => .error "cache must be a boolean."
  | "cacheLocation" => .error "cacheLocation must be a string."
  | "configFile" => .error "configFile must be a string or null."
  | "cwd" => .error "cwd must be a string."
  | "envs" => .error "envs must be an array."
  | "extensions" => .error "extensions must be an array or null."
  | "fix" => .error "fix must be a boolean."
  | "fixTypes" => .error "fixTypes must be an array."
  | "globals" => .error "globals must be an array."
  | "globInputPaths" => .error "globInputPaths must be a boolean."
  | "ignore" => .error "globInputPaths must be a boolean."
  | "ignorePath" => .error "ignorePath must be a string or null."
  | "ignorePattern" => .error "ignorePattern must be a string or an array of strings."
  | "parser" => .error "parser must be a string."
  | "parserOptions" => .error "parserOptions must be an object or null."
  | "plugins" => .error "plugins must be an array."
  | "reportUnusedDisableDirectives" => .error "reportUnusedDisableDirectives must be a boolean."
  | "resolvePluginsRelativeTo" => .error "resolvePluginsRelativeTo must be a string."
  | "rulePaths" => .error "plugins must be an array."
  | "rules" => .error "rules must be an object or null."
  | "useEslintrc" => .error "useElintrc must be a boolean."
  | _ => .error ""

/-! ### Claims C1 to C6 -/

/-- C1: on a raw record with an unknown field, `processOptions` does fail,
but not with the unknown-option message the claim describes: the rest object
`unknownOptions` is a plain object with no `includes`/`join` methods, so
building the message raises a `TypeError` instead — with or without the
retired `cacheFile` name among the unknown fields, and whatever the field's
value is. -/
theorem c1_unknown_options_type_error (procCwd : String) (v : JSValue) :
    processOptions procCwd [("someUnknownOption", v)] =
      .error (.typeError "unknownOptions.includes is not a function") ∧
    processOptions procCwd [("cacheFile", v)] =
      .error (.typeError "unknownOptions.includes is not a function") :=
  ⟨rfl, rfl⟩

/-- C2: the entirely empty raw record does not validate: every default is
applied, and then the `configFile` check fires because its guard couples
`typeof configFile !== "string"` (true for the default `null`) with
`cacheLocation !== null` (true for the default `".eslintcache"`). -/
theorem c2_empty_options_rejected (procCwd : String) :
    processOptions procCwd [] = .error (.error "configFile must be a string or null.") :=
  rfl

/-- C3: a wrong-typed recognized field does not always produce a message
naming that field: a non-boolean `ignore` is reported as `globInputPaths`,
a non-array `rulePaths` is reported as `plugins`, and a non-boolean
`useEslintrc` is reported under the misspelling `useElintrc`. -/
theorem c3_wrong_field_named (procCwd : String) :
    processOptions procCwd [("configFile", JSValue.str "conf"), ("ignore", JSValue.num 0)] =
      .error (.error "globInputPaths must be a boolean.") ∧
    processOptions procCwd [("configFile", JSValue.str "conf"), ("rulePaths", JSValue.num 0)] =
      .error (.error "plugins must be an array.") ∧
    processOptions procCwd [("configFile", JSValue.str "conf"), ("useEslintrc", JSValue.num 0)] =
      .error (.error "useElintrc must be a boolean.") :=
  ⟨rfl, rfl, rfl⟩

/-- C4: the `configFile` rule accepts every string; for a non-string value it
accepts exactly when `cacheLocation` is `null`; and on the all-defaults
record (where `cacheLocation` is `".eslintcache"`), the documented default
`configFile = null` is rejected with the message naming `configFile`. -/
theorem c4_configFile_rule :
    (∀ (s : String) (cl : JSValue), ¬ configFileCheckFails (JSValue.str s) cl) ∧
    (∀ (cf cl : JSValue), typeOf cf ≠ "string" →
      (configFileCheckFails cf cl ↔ cl ≠ JSValue.null)) ∧
    (∀ procCwd : String,
      processOptions procCwd [] = .error (.error "configFile must be a string or null.")) := by
  refine ⟨?_, ?_, ?_⟩
  · intro s cl h
    exact h.1 rfl
  · intro cf cl h
    exact ⟨fun hf => hf.2, fun hn => ⟨h, hn⟩⟩
  · intro procCwd
    rfl

/-- Witness for C4 at concrete inputs: a string `configFile` is accepted, a
`null` one next to the default cache location is rejected, and the empty
record fails with the `configFile` message. -/
theorem c4_witness :
    ¬ configFileCheckFails (JSValue.str "eslintrc.json") (JSValue.str ".eslintcache") ∧
    configFileCheckFails JSValue.null (JSValue.str ".eslintcache") ∧
    processOptions "/cwd" [] = .error (.error "configFile must be a string or null.") :=
  ⟨c4_configFile_rule.1 "eslintrc.json" (JSValue.str ".eslintcache"),
   (c4_configFile_rule.2.1 JSValue.null (JSValue.str ".eslintcache") (by decide)).mpr (by decide),
   c4_configFile_rule.2.2 "/cwd"⟩

/-- C5: on `plugins: ["foo", { id: "bar", definition: {} }]` (with a valid
`configFile`), validation succeeds, the normalized `plugins` field is
`["foo", "bar"]`, and construction initializes the engine with that record
and issues exactly one registration call, binding `"bar"` to the definition
object. -/
theorem c5_plugin_normalization_and_registration (procCwd : String) :
    processOptions procCwd c5RawOptions = .ok (c5Expected procCwd) ∧
    (c5Expected procCwd).plugins = JSValue.arr [JSValue.str "foo", JSValue.str "bar"] ∧
    eslintConstruct procCwd c5RawOptions =
      ⟨some (c5Expected procCwd), [(JSValue.str "bar", JSValue.obj [])], none⟩ :=
  ⟨rfl, rfl, rfl⟩

/-- C6 counterexample: a structured entry with an `id` but no `definition`
field still triggers a registration call — the loop guard only tests
`typeof plugin === "object" && plugin !== null` — binding `"baz"` to
`undefined`; the claim predicts no call for this entry. -/
theorem c6_counterexample :
    (eslintConstruct "/cwd" c6RawOptions).registrations =
      [(JSValue.str "baz", JSValue.undefined)] ∧
    [(JSValue.str "baz", JSValue.undefined)] ≠ ([] : List (JSValue × JSValue)) :=
  ⟨rfl, by simp⟩

/-- C6 as amended: a string entry normalizes to itself and causes no
registration call; an object-typed non-null entry normalizes to its `id`
property, and a registration call is issued for every such entry — whether
or not it carries a `definition` field — binding its `id` property to its
`definition` property (`undefined` when absent), in input order. -/
theorem c6_plugin_entries (ps : List JSValue)
    (hgood : ∀ p ∈ ps, (∃ s, p = JSValue.str s) ∨ (typeOf p = "object" ∧ p ≠ JSValue.null)) :
    normalizePluginIds (JSValue.arr ps) =
      .ok (JSValue.arr (ps.map (fun p => if typeOf p = "string" then p else propGet p "id"))) ∧
    pluginRegLoop ps =
      (ps.filter (fun p => decide (typeOf p = "object" ∧ p ≠ JSValue.null))).map
        (fun p => (propGet p "id", propGet p "definition")) := by
  constructor
  · have hm : mapPluginIds ps =
        .ok (ps.map (fun p => if typeOf p = "string" then p else propGet p "id")) := by
      induction ps with
      | nil => rfl
      | cons p ps ih =>
        have hp := hgood p (List.mem_cons_self p ps)
        have hrest : ∀ q ∈ ps, (∃ s, q = JSValue.str s) ∨
            (typeOf q = "object" ∧ q ≠ JSValue.null) :=
          fun q hq => hgood q (List.mem_cons_of_mem p hq)
        have ihr := ih hrest
        rcases hp with ⟨s, rfl⟩ | ⟨hobj, hnn⟩
        · simp [mapPluginIds, typeOf, ihr]
        · have hget : jsGet p "id" = .ok (propGet p "id") := by
            cases p <;> simp_all [typeOf, jsGet]
          have hns : typeOf p ≠ "string" := by
            rw [hobj]; decide
          simp [mapPluginIds, hns, hget, ihr]
    simp [normalizePluginIds, hm]
  · induction ps with
    | nil => rfl
    | cons p ps ih =>
      have hrest : ∀ q ∈ ps, (∃ s, q = JSValue.str s) ∨
          (typeOf q = "object" ∧ q ≠ JSValue.null) :=
        fun q hq => hgood q (List.mem_cons_of_mem p hq)
      by_cases hc : typeOf p = "object" ∧ p ≠ JSValue.null
      · simp [pluginRegLoop, hc, List.filter, ih hrest]
      · simp [pluginRegLoop, hc, List.filter, ih hrest]

/-- Witness for C6 as amended, at a two-entry list: one bare string, one
structured entry without a `definition`. -/
theorem c6_witness :
    normalizePluginIds (JSValue.arr [JSValue.str "a", JSValue.obj [("id", JSValue.str "b")]]) =
      .ok (JSValue.arr
        ([JSValue.str "a", JSValue.obj [("id", JSValue.str "b")]].map
          (fun p => if typeOf p = "string" then p else propGet p "id"))) ∧
    pluginRegLoop [JSValue.str "a", JSValue.obj [("id", JSValue.str "b")]] =
      (([JSValue.str "a", JSValue.obj [("id", JSValue.str "b")]].filter
          (fun p => decide (typeOf p = "object" ∧ p ≠ JSValue.null))).map
        (fun p => (propGet p "id", propGet p "definition"))) :=
  c6_plugin_entries [JSValue.str "a", JSValue.obj [("id", JSValue.str "b")]]
    (by
      intro p hp
      simp only [List.mem_cons, List.not_mem_nil, or_false] at hp
      rcases hp with rfl | rfl
      · exact Or.inl ⟨"a", rfl⟩
      · exact Or.inr ⟨rfl, by decide⟩)

/-! ### Helper lemmas about the validator -/

theorem orDefault_of_ne {v : JSValue} (dflt : JSValue) (h : v ≠ JSValue.undefined) :
    orDefault v dflt = v := by
  cases v
  · exact absurd rfl h
  all_goals rfl

theorem typeOf_ne_undefined {v : JSValue} {t : String} (h : typeOf v = t)
    (ht : t ≠ "undefined") : v ≠ JSValue.undefined := by
  intro hv
  subst hv
  exact ht h.symm

theorem isArr_ne_undefined {v : JSValue} (h : isArr v = true) : v ≠ JSValue.undefined := by
  intro hv
  subst hv
  simp [isArr] at h

theorem typeOf_eq_string {v : JSValue} (h : typeOf v = "string") :
    ∃ s, v = JSValue.str s := by
  cases v with
  | str s => exact ⟨s, rfl⟩
  | undefined => exact absurd h (by decide)
  | null => exact absurd h (by decide)
  | bool b => exact absurd h (by simp [typeOf])
  | num n => exact absurd h (by simp [typeOf])
  | arr xs => exact absurd h (by simp [typeOf])
  | obj fs => exact absurd h (by simp [typeOf])

theorem isArr_exists_arr {v : JSValue} (h : isArr v = true) :
    ∃ xs, v = JSValue.arr xs := by
  cases v with
  | arr xs => exact ⟨xs, rfl⟩
  | undefined => exact absurd h (by decide)
  | null => exact absurd h (by decide)
  | bool b => exact absurd h (by simp [isArr])
  | num n => exact absurd h (by simp [isArr])
  | str s => exact absurd h (by simp [isArr])
  | obj fs => exact absurd h (by simp [isArr])

theorem bool_true_of_not_false {b : Bool} (h : ¬ b = false) : b = true := by
  cases b
  · exact absurd rfl h
  · rfl

theorem mapPluginIds_strings {ps : List JSValue}
    (h : ∀ p ∈ ps, ∃ s, p = JSValue.str s) : mapPluginIds ps = .ok ps := by
  induction ps with
  | nil => rfl
  | cons p ps ih =>
    obtain ⟨s, rfl⟩ := h p (List.mem_cons_self p ps)
    have ihr := ih (fun q hq => h q (List.mem_cons_of_mem _ hq))
    simp [mapPluginIds, typeOf, ihr]

theorem normalizePluginIds_ok_arr {v np : JSValue}
    (h : normalizePluginIds v = .ok np) : ∃ ids, np = JSValue.arr ids := by
  unfold normalizePluginIds at h
  split at h
  · split at h
    · exact Except.noConfusion h
    · exact ⟨_, (Except.ok.inj h).symm⟩
  · exact Except.noConfusion h

theorem processOptions_ok_elim {procCwd : String} {o : RawOptions} {r : OptionsRecord}
    (h : processOptions procCwd o = .ok r) :
    runChecks (defaulted procCwd o) = .ok r := by
  unfold processOptions at h
  split_ifs at h
  exact h

set_option maxHeartbeats 1600000 in
theorem runChecks_ok_of (d : OptionsRecord) (np : JSValue)
    (hg : GoodShape d) (hnp : normalizePluginIds d.plugins = .ok np) :
    runChecks d = .ok { d with plugins := np } := by
  obtain ⟨g1, g2, g3, g4, g5, g6, g7, g8, g9, g10, g11, g12, g13, g14, g15,
          g16, g17, g18, g19, g20, g21, g22, g23⟩ := hg
  unfold runChecks
  rw [if_neg (by simp [g1])]
  rw [if_neg (by simp [g2])]
  rw [if_neg (by simp [g3])]
  rw [if_neg (by simp [g4])]
  rw [if_neg g5]
  rw [if_neg (by simp [g6])]
  rw [if_neg (by simp [g7])]
  rw [if_neg (by rcases g8 with h | h <;> simp [h])]
  rw [if_neg (by simp [g9])]
  rw [if_neg (by simp [g10])]
  rw [if_neg (by simp [g11])]
  rw [if_neg (by simp [g12])]
  rw [if_neg (by simp [g13])]
  rw [if_neg (by rcases g14 with h | h <;> simp [h])]
  rw [if_neg (by rcases g15 with h | h <;> simp [h])]
  rw [if_neg (by simp [g16])]
  rw [if_neg (by simp [g17])]
  rw [if_neg (by simp [g18])]
  rw [if_neg (by simp [g19])]
  rw [if_neg (by simp [g20])]
  rw [if_neg (by simp [g21])]
  rw [if_neg (by simp [g22])]
  rw [if_neg (by simp [g23])]
  rw [hnp]

set_option maxHeartbeats 1600000 in
theorem runChecks_ok_inv {d o : OptionsRecord} (h : runChecks d = .ok o) :
    GoodShape d ∧ ∃ np, normalizePluginIds d.plugins = .ok np ∧
      o = { d with plugins := np } := by
  unfold runChecks at h
  by_cases h1 : typeOf d.allowInlineConfig ≠ "boolean"
  · rw [if_pos h1] at h
    exact Except.noConfusion h
  rw [if_neg h1] at h
  by_cases h2 : typeOf d.baseConfig ≠ "object"
  · rw [if_pos h2] at h
    exact Except.noConfusion h
  rw [if_neg h2] at h
  by_cases h3 : typeOf d.cache ≠ "boolean"
  · rw [if_pos h3] at h
    exact Except.noConfusion h
  rw [if_neg h3] at h
  by_cases h4 : typeOf d.cacheLocation ≠ "string"
  · rw [if_pos h4] at h
    exact Except.noConfusion h
  rw [if_neg h4] at h
  by_cases h5 : configFileCheckFails d.configFile d.cacheLocation
  · rw [if_pos h5] at h
    exact Except.noConfusion h
  rw [if_neg h5] at h
  by_cases h6 : typeOf d.cwd ≠ "string"
  · rw [if_pos h6] at h
    exact Except.noConfusion h
  rw [if_neg h6] at h
  by_cases h7 : isArr d.envs = false
  · rw [if_pos h7] at h
    exact Except.noConfusion h
  rw [if_neg h7] at h
  by_cases h8 : isArr d.extensions = false ∧ d.extensions ≠ JSValue.null
  · rw [if_pos h8] at h
    exact Except.noConfusion h
  rw [if_neg h8] at h
  by_cases h9 : typeOf d.fix ≠ "boolean"
  · rw [if_pos h9] at h
    exact Except.noConfusion h
  rw [if_neg h9] at h
  by_cases h10 : isArr d.fixTypes = false
  · rw [if_pos h10] at h
    exact Except.noConfusion h
  rw [if_neg h10] at h
  by_cases h11 : isArr d.globals = false
  · rw [if_pos h11] at h
    exact Except.noConfusion h
  rw [if_neg h11] at h
  by_cases h12 : typeOf d.globInputPaths ≠ "boolean"
  · rw [if_pos h12] at h
    exact Except.noConfusion h
  rw [if_neg h12] at h
  by_cases h13 : typeOf d.ignore ≠ "boolean"
  · rw [if_pos h13] at h
    exact Except.noConfusion h
  rw [if_neg h13] at h
  by_cases h14 : typeOf d.ignorePath ≠ "string" ∧ d.ignorePath ≠ JSValue.null
  · rw [if_pos h14] at h
    exact Except.noConfusion h
  rw [if_neg h14] at h
  by_cases h15 : typeOf d.ignorePattern ≠ "string" ∧ isArr d.ignorePattern = false
  · rw [if_pos h15] at h
    exact Except.noConfusion h
  rw [if_neg h15] at h
  by_cases h16 : typeOf d.parser ≠ "string"
  · rw [if_pos h16] at h
    exact Except.noConfusion h
  rw [if_neg h16] at h
  by_cases h17 : typeOf d.parserOptions ≠ "object"
  · rw [if_pos h17] at h
    exact Except.noConfusion h
  rw [if_neg h17] at h
  by_cases h18 : isArr d.plugins = false
  · rw [if_pos h18] at h
    exact Except.noConfusion h
  rw [if_neg h18] at h
  by_cases h19 : typeOf d.reportUnusedDisableDirectives ≠ "boolean"
  · rw [if_pos h19] at h
    exact Except.noConfusion h
  rw [if_neg h19] at h
  by_cases h20 : typeOf d.resolvePluginsRelativeTo ≠ "string"
  · rw [if_pos h20] at h
    exact Except.noConfusion h
  rw [if_neg h20] at h
  by_cases h21 : isArr d.rulePaths = false
  · rw [if_pos h21] at h
    exact Except.noConfusion h
  rw [if_neg h21] at h
  by_cases h22 : typeOf d.rules ≠ "object"
  · rw [if_pos h22] at h
    exact Except.noConfusion h
  rw [if_neg h22] at h
  by_cases h23 : typeOf d.useEslintrc ≠ "boolean"
  · rw [if_pos h23] at h
    exact Except.noConfusion h
  rw [if_neg h23] at h
  have g8 : isArr d.extensions = true ∨ d.extensions = JSValue.null := by
    cases hb : isArr d.extensions
    · right
      by_contra hne
      exact h8 ⟨hb, hne⟩
    · left
      rfl
  have g14 : typeOf d.ignorePath = "string" ∨ d.ignorePath = JSValue.null := by
    by_cases hs : typeOf d.ignorePath = "string"
    · exact Or.inl hs
    · right
      by_contra hne
      exact h14 ⟨hs, hne⟩
  have g15 : typeOf d.ignorePattern = "string" ∨ isArr d.ignorePattern = true := by
    by_cases hs : typeOf d.ignorePattern = "string"
    · exact Or.inl hs
    · right
      cases hb : isArr d.ignorePattern
      · exact absurd ⟨hs, hb⟩ h15
      · rfl
  refine ⟨⟨not_not.mp h1, not_not.mp h2, not_not.mp h3, not_not.mp h4, h5,
           not_not.mp h6, bool_true_of_not_false h7, g8, not_not.mp h9,
           bool_true_of_not_false h10, bool_true_of_not_false h11,
           not_not.mp h12, not_not.mp h13, g14, g15, not_not.mp h16,
           not_not.mp h17, bool_true_of_not_false h18, not_not.mp h19,
           not_not.mp h20, bool_true_of_not_false h21, not_not.mp h22,
           not_not.mp h23⟩, ?_⟩
  split at h
  · exact Except.noConfusion h
  · exact ⟨_, by assumption, (Except.ok.inj h).symm⟩

/-! ### Claims C7 to C10 -/

/-- C10: every record the validator returns carries a string `configFile`:
`cacheLocation` is forced to be a string by its own earlier check, so the
`cacheLocation !== null` escape hatch in the `configFile` guard can never
save a non-string `configFile`. -/
theorem c10_configFile_always_string (procCwd : String) (raw : RawOptions)
    (o : OptionsRecord) (h : processOptions procCwd raw = .ok o) :
    ∃ s, o.configFile = JSValue.str s := by
  obtain ⟨hg, np, hnp, ho⟩ := runChecks_ok_inv (processOptions_ok_elim h)
  obtain ⟨g1, g2, g3, g4, g5, _⟩ := hg
  have hcl : (defaulted procCwd raw).cacheLocation ≠ JSValue.null := by
    intro hn
    rw [hn] at g4
    exact absurd g4 (by decide)
  have hcf : typeOf (defaulted procCwd raw).configFile = "string" := by
    by_contra hne
    exact g5 ⟨hne, hcl⟩
  obtain ⟨s, hs⟩ := typeOf_eq_string hcf
  subst ho
  exact ⟨s, hs⟩

/-- Witness for C10: the record returned for a raw record supplying only a
string `configFile` has that string in its `configFile` field. -/
theorem c10_witness :
    ∃ s, ({ defaulted "/cwd" [("configFile", JSValue.str "conf")] with
            plugins := JSValue.arr [] } : OptionsRecord).configFile = JSValue.str s :=
  c10_configFile_always_string "/cwd" [("configFile", JSValue.str "conf")] _ rfl

theorem processOptions_toRaw (procCwd : String) (r : OptionsRecord)
    (hg : GoodShape r) (hstr : ∀ p ∈ elemsOf r.plugins, ∃ s, p = JSValue.str s) :
    processOptions procCwd (toRaw r) = .ok r := by
  obtain ⟨g1, g2, g3, g4, g5, g6, g7, g8, g9, g10, g11, g12, g13, g14, g15,
          g16, g17, g18, g19, g20, g21, g22, g23⟩ := hg
  have hcl : r.cacheLocation ≠ JSValue.null := by
    intro hn
    rw [hn] at g4
    exact absurd g4 (by decide)
  have hcf : typeOf r.configFile = "string" := by
    by_contra hne
    exact g5 ⟨hne, hcl⟩
  have n1 : r.allowInlineConfig ≠ JSValue.undefined := typeOf_ne_undefined g1 (by decide)
  have n2 : r.baseConfig ≠ JSValue.undefined := typeOf_ne_undefined g2 (by decide)
  have n3 : r.cache ≠ JSValue.undefined := typeOf_ne_undefined g3 (by decide)
  have n4 : r.cacheLocation ≠ JSValue.undefined := typeOf_ne_undefined g4 (by decide)
  have n5 : r.configFile ≠ JSValue.undefined := typeOf_ne_undefined hcf (by decide)
  have n6 : r.cwd ≠ JSValue.undefined := typeOf_ne_undefined g6 (by decide)
  have n7 : r.envs ≠ JSValue.undefined := isArr_ne_undefined g7
  have n8 : r.extensions ≠ JSValue.undefined := by
    rcases g8 with h | h
    · exact isArr_ne_undefined h
    · rw [h]
      intro hv
      exact JSValue.noConfusion hv
  have n9 : r.fix ≠ JSValue.undefined := typeOf_ne_undefined g9 (by decide)
  have n10 : r.fixTypes ≠ JSValue.undefined := isArr_ne_undefined g10
  have n11 : r.globals ≠ JSValue.undefined := isArr_ne_undefined g11
  have n12 : r.globInputPaths ≠ JSValue.undefined := typeOf_ne_undefined g12 (by decide)
  have n13 : r.ignore ≠ JSValue.undefined := typeOf_ne_undefined g13 (by decide)
  have n14 : r.ignorePath ≠ JSValue.undefined := by
    rcases g14 with h | h
    · exact typeOf_ne_undefined h (by decide)
    · rw [h]
      intro hv
      exact JSValue.noConfusion hv
  have n15 : r.ignorePattern ≠ JSValue.undefined := by
    rcases g15 with h | h
    · exact typeOf_ne_undefined h (by decide)
    · exact isArr_ne_undefined h
  have n16 : r.parser ≠ JSValue.undefined := typeOf_ne_undefined g16 (by decide)
  have n17 : r.parserOptions ≠ JSValue.undefined := typeOf_ne_undefined g17 (by decide)
  have n18 : r.plugins ≠ JSValue.undefined := isArr_ne_undefined g18
  have n19 : r.reportUnusedDisableDirectives ≠ JSValue.undefined :=
    typeOf_ne_undefined g19 (by decide)
  have n20 : r.resolvePluginsRelativeTo ≠ JSValue.undefined :=
    typeOf_ne_undefined g20 (by decide)
  have n21 : r.rulePaths ≠ JSValue.undefined := isArr_ne_undefined g21
  have n22 : r.rules ≠ JSValue.undefined := typeOf_ne_undefined g22 (by decide)
  have n23 : r.useEslintrc ≠ JSValue.undefined := typeOf_ne_undefined g23 (by decide)
  have hd : defaulted procCwd (toRaw r) = r := by
    show OptionsRecord.mk (orDefault r.allowInlineConfig (.bool true))
        (orDefault r.baseConfig .null) (orDefault r.cache (.bool false))
        (orDefault r.cacheLocation (.str ".eslintcache"))
        (orDefault r.configFile .null) (orDefault r.cwd (.str procCwd))
        (orDefault r.envs (.arr [])) (orDefault r.extensions .null)
        (orDefault r.fix (.bool false))
        (orDefault r.fixTypes (.arr [.str "problem", .str "suggestion", .str "layout"]))
        (orDefault r.globals (.arr [])) (orDefault r.globInputPaths (.bool true))
        (orDefault r.ignore (.bool true)) (orDefault r.ignorePath .null)
        (orDefault r.ignorePattern (.arr [])) (orDefault r.parser (.str "espree"))
        (orDefault r.parserOptions .null) (orDefault r.plugins (.arr []))
        (orDefault r.reportUnusedDisableDirectives (.bool false))
        (orDefault r.resolvePluginsRelativeTo (orDefault r.cwd (.str procCwd)))
        (orDefault r.rulePaths (.arr [])) (orDefault r.rules .null)
        (orDefault r.useEslintrc (.bool true)) = r
    rw [orDefault_of_ne _ n1, orDefault_of_ne _ n2, orDefault_of_ne _ n3,
        orDefault_of_ne _ n4, orDefault_of_ne _ n5, orDefault_of_ne _ n6,
        orDefault_of_ne _ n7, orDefault_of_ne _ n8, orDefault_of_ne _ n9,
        orDefault_of_ne _ n10, orDefault_of_ne _ n11, orDefault_of_ne _ n12,
        orDefault_of_ne _ n13, orDefault_of_ne _ n14, orDefault_of_ne _ n15,
        orDefault_of_ne _ n16, orDefault_of_ne _ n17, orDefault_of_ne _ n18,
        orDefault_of_ne _ n19, orDefault_of_ne _ n20, orDefault_of_ne _ n21,
        orDefault_of_ne _ n22, orDefault_of_ne _ n23]
  have hnp : normalizePluginIds r.plugins = .ok r.plugins := by
    obtain ⟨xs, hxs⟩ := isArr_exists_arr g18
    have hstr2 : ∀ p ∈ xs, ∃ s, p = JSValue.str s := by
      intro p hp
      refine hstr p ?_
      rw [hxs]
      exact hp
    rw [hxs]
    simp [normalizePluginIds, mapPluginIds_strings hstr2]
  have hrest := runChecks_ok_of r r.plugins
    ⟨g1, g2, g3, g4, g5, g6, g7, g8, g9, g10, g11, g12, g13, g14, g15,
     g16, g17, g18, g19, g20, g21, g22, g23⟩ hnp
  unfold processOptions
  rw [show unknownOptions (toRaw r) = [] from rfl]
  rw [if_neg (by decide)]
  rw [hd]
  exact hrest

/-- C7 counterexample: a fully-populated raw record, each field satisfying
its own validation rule, whose plugin entry is an object with a numeric
`id`.  The first pass normalizes `plugins` to `[5]`; re-validating that
output maps the non-string `5` to its absent `id` property, producing
`[undefined]` — so the second pass returns a different record and the
round-trip, as claimed for every individually-valid record, fails. -/
theorem c7_counterexample :
    (processOptions "/cwd" c7RawFull).bind
        (fun r => processOptions "/cwd" (toRaw r)) ≠
      processOptions "/cwd" c7RawFull := by
  intro h
  have h2 : (Except.ok (JSValue.arr [JSValue.undefined]) :
        Except JSError JSValue) =
      Except.ok (JSValue.arr [JSValue.num 5]) :=
    congrArg (Except.map OptionsRecord.plugins) h
  simp at h2

/-- C7 as amended: re-validation of a normalized record reproduces it
exactly when every entry of its (already normalized) `plugins` list is a
bare string — which is the case whenever the raw entries were strings or
objects with string `id`s; entries that normalize to non-strings (such as
an object with a numeric `id`) break the round trip. -/
theorem c7_idempotent (procCwd : String) (raw : RawOptions) (o : OptionsRecord)
    (h : processOptions procCwd raw = .ok o)
    (hstr : ∀ p ∈ elemsOf o.plugins, ∃ s, p = JSValue.str s) :
    processOptions procCwd (toRaw o) = .ok o := by
  obtain ⟨hg, np, hnp, ho⟩ := runChecks_ok_inv (processOptions_ok_elim h)
  subst ho
  obtain ⟨ids, hids⟩ := normalizePluginIds_ok_arr hnp
  obtain ⟨g1, g2, g3, g4, g5, g6, g7, g8, g9, g10, g11, g12, g13, g14, g15,
          g16, g17, g18, g19, g20, g21, g22, g23⟩ := hg
  refine processOptions_toRaw procCwd _ ⟨g1, g2, g3, g4, g5, g6, g7, g8, g9,
    g10, g11, g12, g13, g14, g15, g16, g17, ?_, g19, g20, g21, g22, g23⟩ hstr
  show isArr np = true
  rw [hids]
  rfl

/-- Witness for C7 as amended: a record normalized from a raw record whose
single plugin entry is the bare string `"foo"` revalidates to itself. -/
theorem c7_witness :
    processOptions "/cwd"
        (toRaw { defaulted "/cwd"
                   [("configFile", JSValue.str "conf"),
                    ("plugins", JSValue.arr [JSValue.str "foo"])] with
                 plugins := JSValue.arr [JSValue.str "foo"] }) =
      .ok { defaulted "/cwd"
              [("configFile", JSValue.str "conf"),
               ("plugins", JSValue.arr [JSValue.str "foo"])] with
            plugins := JSValue.arr [JSValue.str "foo"] } :=
  c7_idempotent "/cwd"
    [("configFile", JSValue.str "conf"), ("plugins", JSValue.arr [JSValue.str "foo"])]
    _ rfl
    (by
      intro p hp
      have hp2 : p ∈ [JSValue.str "foo"] := hp
      simp only [List.mem_singleton] at hp2
      exact ⟨"foo", hp2⟩)

set_option maxHeartbeats 1600000 in
/-- C8: whenever some validation rule is violated, `processOptions` fails
with the exception of the first violated rule in the fixed source order —
the unknown-field gate first, then the 23 field checks — and the engine is
never initialized: the constructor evaluates `processOptions` before
`new CLIEngine`, so the exception propagates first. -/
theorem c8_first_violation (procCwd : String) (o : RawOptions) (f : String)
    (h : firstViolation procCwd o = some f) :
    processOptions procCwd o = .error (errFor f) ∧
    (eslintConstruct procCwd o).engineInit = none := by
  have hp : processOptions procCwd o = .error (errFor f) := by
    unfold firstViolation at h
    unfold processOptions runChecks
    by_cases h0 : (unknownOptions o).length ≥ 1
    · rw [if_pos h0] at h
      rw [if_pos h0]
      injection h with hf
      subst hf
      rfl
    rw [if_neg h0] at h
    rw [if_neg h0]
    by_cases h1 : typeOf (defaulted procCwd o).allowInlineConfig ≠ "boolean"
    · rw [if_pos h1] at h
      rw [if_pos h1]
      injection h with hf
      subst hf
      rfl
    rw [if_neg h1] at h
    rw [if_neg h1]
    by_cases h2 : typeOf (defaulted procCwd o).baseConfig ≠ "object"
    · rw [if_pos h2] at h
      rw [if_pos h2]
      injection h with hf
      subst hf
      rfl
    rw [if_neg h2] at h
    rw [if_neg h2]
    by_cases h3 : typeOf (defaulted procCwd o).cache ≠ "boolean"
    · rw [if_pos h3] at h
      rw [if_pos h3]
      injection h with hf
      subst hf
      rfl
    rw [if_neg h3] at h
    rw [if_neg h3]
    by_cases h4 : typeOf (defaulted procCwd o).cacheLocation ≠ "string"
    · rw [if_pos h4] at h
      rw [if_pos h4]
      injection h with hf
      subst hf
      rfl
    rw [if_neg h4] at h
    rw [if_neg h4]
    by_cases h5 : configFileCheckFails (defaulted procCwd o).configFile (defaulted procCwd o).cacheLocation
    · rw [if_pos h5] at h
      rw [if_pos h5]
      injection h with hf
      subst hf
      rfl
    rw [if_neg h5] at h
    rw [if_neg h5]
    by_cases h6 : typeOf (defaulted procCwd o).cwd ≠ "string"
    · rw [if_pos h6] at h
      rw [if_pos h6]
      injection h with hf
      subst hf
      rfl
    rw [if_neg h6] at h
    rw [if_neg h6]
    by_cases h7 : isArr (defaulted procCwd o).envs = false
    · rw [if_pos h7] at h
      rw [if_pos h7]
      injection h with hf
      subst hf
      rfl
    rw [if_neg h7] at h
    rw [if_neg h7]
    by_cases h8 : isArr (defaulted procCwd o).extensions = false ∧ (defaulted procCwd o).extensions ≠ JSValue.null
    · rw [if_pos h8] at h
      rw [if_pos h8]
      injection h with hf
      subst hf
      rfl
    rw [if_neg h8] at h
    rw [if_neg h8]
    by_cases h9 : typeOf (defaulted procCwd o).fix ≠ "boolean"
    · rw [if_pos h9] at h
      rw [if_pos h9]
      injection h with hf
      subst hf
      rfl
    rw [if_neg h9] at h
    rw [if_neg h9]
    by_cases h10 : isArr (defaulted procCwd o).fixTypes = false
    · rw [if_pos h10] at h
      rw [if_pos h10]
      injection h with hf
      subst hf
      rfl
    rw [if_neg h10] at h
    rw [if_neg h10]
    by_cases h11 : isArr (defaulted procCwd o).globals = false
    · rw [if_pos h11] at h
      rw [if_pos h11]
      injection h with hf
      subst hf
      rfl
    rw [if_neg h11] at h
    rw [if_neg h11]
    by_cases h12 : typeOf (defaulted procCwd o).globInputPaths ≠ "boolean"
    · rw [if_pos h12] at h
      rw [if_pos h12]
      injection h with hf
      subst hf
      rfl
    rw [if_neg h12] at h
    rw [if_neg h12]
    by_cases h13 : typeOf (defaulted procCwd o).ignore ≠ "boolean"
    · rw [if_pos h13] at h
      rw [if_pos h13]
      injection h with hf
      subst hf
      rfl
    rw [if_neg h13] at h
    rw [if_neg h13]
    by_cases h14 : typeOf (defaulted procCwd o).ignorePath ≠ "string" ∧ (defaulted procCwd o).ignorePath ≠ JSValue.null
    · rw [if_pos h14] at h
      rw [if_pos h14]
      injection h with hf
      subst hf
      rfl
    rw [if_neg h14] at h
    rw [if_neg h14]
    by_cases h15 : typeOf (defaulted procCwd o).ignorePattern ≠ "string" ∧ isArr (defaulted procCwd o).ignorePattern = false
    · rw [if_pos h15] at h
      rw [if_pos h15]
      injection h with hf
      subst hf
      rfl
    rw [if_neg h15] at h
    rw [if_neg h15]
    by_cases h16 : typeOf (defaulted procCwd o).parser ≠ "string"
    · rw [if_pos h16] at h
      rw [if_pos h16]
      injection h with hf
      subst hf
      rfl
    rw [if_neg h16] at h
    rw [if_neg h16]
    by_cases h17 : typeOf (defaulted procCwd o).parserOptions ≠ "object"
    · rw [if_pos h17] at h
      rw [if_pos h17]
      injection h with hf
      subst hf
      rfl
    rw [if_neg h17] at h
    rw [if_neg h17]
    by_cases h18 : isArr (defaulted procCwd o).plugins = false
    · rw [if_pos h18] at h
      rw [if_pos h18]
      injection h with hf
      subst hf
      rfl
    rw [if_neg h18] at h
    rw [if_neg h18]
    by_cases h19 : typeOf (defaulted procCwd o).reportUnusedDisableDirectives ≠ "boolean"
    · rw [if_pos h19] at h
      rw [if_pos h19]
      injection h with hf
      subst hf
      rfl
    rw [if_neg h19] at h
    rw [if_neg h19]
    by_cases h20 : typeOf (defaulted procCwd o).resolvePluginsRelativeTo ≠ "string"
    · rw [if_pos h20] at h
      rw [if_pos h20]
      injection h with hf
      subst hf
      rfl
    rw [if_neg h20] at h
    rw [if_neg h20]
    by_cases h21 : isArr (defaulted procCwd o).rulePaths = false
    · rw [if_pos h21] at h
      rw [if_pos h21]
      injection h with hf
      subst hf
      rfl
    rw [if_neg h21] at h
    rw [if_neg h21]
    by_cases h22 : typeOf (defaulted procCwd o).rules ≠ "object"
    · rw [if_pos h22] at h
      rw [if_pos h22]
      injection h with hf
      subst hf
      rfl
    rw [if_neg h22] at h
    rw [if_neg h22]
    by_cases h23 : typeOf (defaulted procCwd o).useEslintrc ≠ "boolean"
    · rw [if_pos h23] at h
      rw [if_pos h23]
      injection h with hf
      subst hf
      rfl
    rw [if_neg h23] at h
    rw [if_neg h23]
    exact Option.noConfusion h
  refine ⟨hp, ?_⟩
  unfold eslintConstruct
  rw [hp]

/-- Witness for C8: on the empty raw record the first violated rule is the
`configFile` check, and construction fails with its message before any
engine initialization. -/
theorem c8_witness :
    processOptions "/cwd" [] = .error (errFor "configFile") ∧
    (eslintConstruct "/cwd" []).engineInit = none :=
  c8_first_violation "/cwd" [] "configFile" rfl

/-- C9: if the raw record has no `plugins` property, construction always
throws: either validation already fails, or — after validation succeeds
(using the defaulted empty list) and the engine is initialized — the
constructor reads `.length` on the raw, absent `options.plugins` and raises
a `TypeError`.  Supplying `plugins: []` instead validates identically but
lets construction finish, so the two are not equivalent. -/
theorem c9_omitting_plugins_throws (procCwd : String) (o : RawOptions)
    (homit : getProp o "plugins" = JSValue.undefined) :
    (eslintConstruct procCwd o).thrown.isSome = true ∧
    (∀ r, processOptions procCwd o = .ok r →
      eslintConstruct procCwd o =
        ⟨some r, [], some (.typeError "Cannot read property length of undefined")⟩ ∧
      eslintConstruct procCwd (("plugins", JSValue.arr []) :: o) =
        ⟨some r, [], none⟩) := by
  have hu : unknownOptions (("plugins", JSValue.arr []) :: o) = unknownOptions o := by
    simp [unknownOptions, recognizedKeys, List.filter_cons]
  have hd : defaulted procCwd (("plugins", JSValue.arr []) :: o) =
      defaulted procCwd o := by
    simp [defaulted, getD, getProp, orDefault, homit]
  have hcons : processOptions procCwd (("plugins", JSValue.arr []) :: o) =
      processOptions procCwd o := by
    unfold processOptions
    rw [hu, hd]
  cases hpo : processOptions procCwd o with
  | error e =>
    constructor
    · unfold eslintConstruct
      rw [hpo]
      rfl
    · intro r hr
      exact Except.noConfusion hr
  | ok r0 =>
    have hec : eslintConstruct procCwd o =
        ⟨some r0, [],
         some (.typeError "Cannot read property length of undefined")⟩ := by
      unfold eslintConstruct
      rw [hpo, homit]
      rfl
    have hec2 : eslintConstruct procCwd (("plugins", JSValue.arr []) :: o) =
        ⟨some r0, [], none⟩ := by
      unfold eslintConstruct
      rw [hcons, hpo]
      rfl
    constructor
    · rw [hec]
      rfl
    · intro r hr
      cases Except.ok.inj hr
      exact ⟨hec, hec2⟩

/-- Witness for C9: with only a string `configFile` supplied and `plugins`
omitted, construction initializes the engine and then throws the
`length`-of-`undefined` `TypeError`; adding `plugins: []` makes the same
construction succeed. -/
theorem c9_witness :
    (eslintConstruct "/cwd" [("configFile", JSValue.str "conf")]).thrown.isSome = true ∧
    (∀ r, processOptions "/cwd" [("configFile", JSValue.str "conf")] = .ok r →
      eslintConstruct "/cwd" [("configFile", JSValue.str "conf")] =
        ⟨some r, [], some (.typeError "Cannot read property length of undefined")⟩ ∧
      eslintConstruct "/cwd"
          (("plugins", JSValue.arr []) :: [("configFile", JSValue.str "conf")]) =
        ⟨some r, [], none⟩) :=
  c9_omitting_plugins_throws "/cwd" [("configFile", JSValue.str "conf")] rfl
